import Mathlib

/-!
Verification development for the NetVisor network-discovery engine.

Each definition below is a shallow embedding of a function of the
repository (daemon scanner, daemon discovery runner, server discovery
scheduler, server subnet service, service-classification patterns).
Machine integers are modelled as Nat (no arithmetic here can overflow a
u16/usize in the ranges exercised), UUIDs are modelled as Nat drawn from a
counter, and network / storage I/O is modelled by passing the observed
outcomes in as explicit arguments.  Types whose defining file is not part
of the source snapshot are modelled from the specification and marked
as such in their doc comments.
-/

/-- Transport protocol of a port (src/server/hosts/impl/ports.rs).
Modelled from the spec: the ports module is not in the source snapshot;
the spec fixes port identity as the pair (number, transport). -/
inductive TransportProtocol where
  | tcp
  | udp
deriving DecidableEq, Repr

/-- Rank used to order transport protocols inside a sort key. -/
def TransportProtocol.rank : TransportProtocol → Nat
  | .tcp => 0
  | .udp => 1

/-- A port base: identity is (number, transport).
Modelled from the spec (ports.rs is not in the source snapshot). -/
structure PortBase where
  number : Nat
  protocol : TransportProtocol
deriving DecidableEq, Repr

/-- PortBase::new_tcp. -/
def PortBase.new_tcp (n : Nat) : PortBase := ⟨n, .tcp⟩

/-- PortBase::new_udp. -/
def PortBase.new_udp (n : Nat) : PortBase := ⟨n, .udp⟩

/-- Numeric encoding of the sort key (number, transport); the transport
rank is below 2, so the lexicographic order on the pair coincides with the
numeric order of this encoding, and the encoding is injective. -/
def portKey (p : PortBase) : Nat := 2 * p.number + p.protocol.rank

/-- Sort order used by sort_by_key(|p| (p.number(), p.protocol())). -/
def portLe (a b : PortBase) : Prop := portKey a ≤ portKey b

/-- Strict version of the port sort order. -/
def portLt (a b : PortBase) : Prop := portKey a < portKey b

instance : DecidableRel portLe := fun p q => Nat.decLe (portKey p) (portKey q)

instance : DecidableRel portLt := fun p q => Nat.decLt (portKey p) (portKey q)

instance : IsTotal PortBase portLe := ⟨fun p q => Nat.le_total (portKey p) (portKey q)⟩

instance : IsTrans PortBase portLe := ⟨fun _ _ _ h h2 => Nat.le_trans h h2⟩

instance : IsTrans PortBase portLt := ⟨fun _ _ _ h h2 => Nat.lt_trans h h2⟩

/-- Auxiliary loop of Vec::dedup (remove consecutive duplicates, keeping
the first element of every run); prev is the last element kept. -/
def dedupGo (prev : PortBase) : List PortBase → List PortBase
  | [] => []
  | b :: rest => if b = prev then dedupGo prev rest else b :: dedupGo b rest

/-- Vec::dedup: removes consecutive duplicate elements. -/
def dedupConsec : List PortBase → List PortBase
  | [] => []
  | a :: rest => a :: dedupGo a rest

/-- Stable sort of a port list by the key (number, transport); models
Vec::sort_by_key (a stable sort) with that key. -/
def sortPorts (l : List PortBase) : List PortBase := List.insertionSort portLe l

/-- Post-processing tail of scan_ports_and_endpoints
(src/daemon/utils/scanner.rs lines 101-163), with the probing I/O results
passed in: open_ports is seeded with the TCP then UDP scan results, every
port that produced an endpoint response is appended when missing, and the
list is then sorted by (number, transport) and deduplicated.
The endpoint-response ports are passed as bare PortBase values
(endpoint_response.endpoint.port_base in the source). -/
def scan_post_process (tcp_ports udp_ports : List PortBase)
    (endpoint_ports : List PortBase) : List PortBase :=
  let open_ports := tcp_ports ++ udp_ports
  let open_ports := endpoint_ports.foldl
    (fun acc port => if port ∈ acc then acc else acc ++ [port]) open_ports
  dedupConsec (sortPorts open_ports)

/-- Rust's clamp(lo, hi) on usize (requires lo ≤ hi in the ranges used). -/
def rustClamp (x lo hi : Nat) : Nat := max lo (min x hi)

/-- get_optimal_concurrent_scans (src/daemon/utils/base.rs lines 176-249),
with the process FD soft limit passed in; returns the pair
(port_batch_bounded, optimal_concurrent) of the derivation.  usize
saturating_sub is Nat subtraction. -/
def derive_concurrency (fd_limit : Nat) : Nat × Nat :=
  let reserved := 203
  let available := fd_limit - reserved
  let target_concurrent_hosts :=
    if available < 500 then 5
    else if available < 2000 then 15
    else if available < 5000 then 30
    else 50
  let endpoint_fds_per_host := 25
  let overhead_per_host := 20
  let available_per_host := available / target_concurrent_hosts
  let port_batch_per_host :=
    available_per_host - (endpoint_fds_per_host + overhead_per_host)
  let port_batch_bounded := rustClamp port_batch_per_host 10 200
  let fds_per_host := port_batch_bounded + endpoint_fds_per_host + overhead_per_host
  let actual_concurrent := available / fds_per_host
  let optimal_concurrent := rustClamp actual_concurrent 1 50
  (port_batch_bounded, optimal_concurrent)

/-- Result of get_optimal_concurrent_scans: the configured value 15 is the
default and selects the automatic derivation; any other configured value
overrides it. -/
def get_optimal_concurrent_scans (fd_limit concurrency_config_value : Nat) : Nat :=
  if concurrency_config_value ≠ 15 then concurrency_config_value
  else (derive_concurrency fd_limit).2

/-- Claim-side formula of the concurrency derivation, written from the
spec sentence: available = L − 203 saturating, target tiers
5/15/30/50, port batch clamp((available/target) − 45, 10, 200), final
count clamp(available / (port_batch + 45), 1, 50). -/
def concurrencySpecFormula (fd_limit : Nat) : Nat × Nat :=
  let available := fd_limit - 203
  let target :=
    if available < 500 then 5
    else if available < 2000 then 15
    else if available < 5000 then 30
    else 50
  let port_batch := rustClamp (available / target - 45) 10 200
  (port_batch, rustClamp (available / (port_batch + 45)) 1 50)

/-- An IP address; only the structure needed by the scan-order key:
IPv4 octets, or an IPv6 marker (src uses std::net::IpAddr). -/
inductive Ip where
  | v4 (a b c d : Nat)
  | v6 (segments : List Nat)
deriving DecidableEq, Repr

/-- Scan-priority key of determine_scan_order
(src/daemon/discovery/service/network.rs lines 390-426): the match on the
last octet, arms in source order.  An IPv4 last octet is a u8, so the
if-chain below covers exactly the source's match arms. -/
def scanOrderOctetKey (last_octet : Nat) : Nat :=
  if last_octet = 1 then 1
  else if last_octet = 254 then 2
  else if last_octet = 2 then 10
  else if last_octet = 3 then 11
  else if last_octet = 10 then 12
  else if last_octet = 100 then 13
  else if last_octet = 253 then 14
  else if last_octet = 252 then 15
  else if 4 ≤ last_octet ∧ last_octet ≤ 9 then 20 + last_octet
  else if 11 ≤ last_octet ∧ last_octet ≤ 20 then 30 + last_octet
  else if 21 ≤ last_octet ∧ last_octet ≤ 30 then 50 + last_octet
  else if 31 ≤ last_octet ∧ last_octet ≤ 50 then 100 + last_octet
  else if 51 ≤ last_octet ∧ last_octet ≤ 100 then 200 + last_octet
  else if 101 ≤ last_octet ∧ last_octet ≤ 150 then 400 + last_octet
  else if 151 ≤ last_octet ∧ last_octet ≤ 200 then 600 + last_octet
  else if 201 ≤ last_octet ∧ last_octet ≤ 251 then 800 + last_octet
  else 9998

/-- Full sort key of determine_scan_order: IPv6 addresses get 9999,
IPv4 addresses the key of their last octet. -/
def scanOrderKey (ip : Ip) : Nat :=
  match ip with
  | .v6 _ => 9999
  | .v4 _ _ _ d => scanOrderOctetKey d

/-- Order relation of the scan-order sort. -/
def scanOrderLe (a b : Ip) : Prop := scanOrderKey a ≤ scanOrderKey b

instance : DecidableRel scanOrderLe := fun p q => Nat.decLe (scanOrderKey p) (scanOrderKey q)

instance : IsTotal Ip scanOrderLe := ⟨fun p q => Nat.le_total (scanOrderKey p) (scanOrderKey q)⟩

instance : IsTrans Ip scanOrderLe := ⟨fun _ _ _ h h2 => Nat.le_trans h h2⟩

/-- determine_scan_order
(src/daemon/discovery/service/network.rs lines 386-429): collects the
subnet's addresses (passed in as a list, as produced by subnet iteration,
which includes the network and broadcast addresses) and sorts them by the
priority key.  No address is removed. -/
def determine_scan_order (ips : List Ip) : List Ip :=
  List.insertionSort scanOrderLe ips

/-- The addresses of the IPv4 subnet 192.0.2.0/24, in iteration order. -/
def subnet19202 : List Ip := (List.range 256).map (fun d => Ip.v4 192 0 2 d)

/-- Check whether the list hay starts with the list needle. -/
def listStartsWith : List Char → List Char → Bool
  | _, [] => true
  | [], _ :: _ => false
  | a :: as, b :: bs => a = b && listStartsWith as bs

/-- Check whether needle occurs as a contiguous run inside hay. -/
def listContainsRun : List Char → List Char → Bool
  | [], needle => listStartsWith [] needle
  | a :: rest, needle =>
    listStartsWith (a :: rest) needle || listContainsRun rest needle

/-- Substring test on strings (str::contains in the source). -/
def strContainsSub (hay needle : String) : Bool :=
  listContainsRun hay.toList needle.toList

/-- Lowercase a string (str::to_lowercase; ASCII suffices here). -/
def strLower (s : String) : String := String.mk (s.toList.map Char.toLower)

/-- Critical scanner error detection, DiscoveryCriticalError::is_critical_error.
Modelled from the spec: the type lives in daemon/discovery/types/base.rs,
which is not in the source snapshot; the spec describes it as a substring
match on a maintained set of resource-starvation error messages, naming
file-descriptor exhaustion ("too many open files"). -/
def is_critical_error (msg : String) : Bool :=
  [ "too many open files", "no buffer space available",
    "cannot allocate memory", "resource temporarily unavailable"
  ].any (fun pat => strContainsSub (strLower msg) pat)

/-- Outcome of one TCP connect attempt against a port, as observed by
scan_tcp_ports; timeouts already account for the one retry the probe makes. -/
inductive ConnectOutcome where
  | connected
  | connectError (msg : String)
  | timedOut
deriving DecidableEq, Repr

/-- Per-port body of the batch_scan closure in scan_tcp_ports
(src/daemon/utils/scanner.rs lines 187-245): a successful connection
yields the open port; a connection error is checked against the critical
set but only logged, and the probe returns None either way; a timeout
(after the retry) returns None. -/
def tcp_probe (port : Nat) (outcome : ConnectOutcome) : Option PortBase :=
  match outcome with
  | .connected => some (PortBase.new_tcp port)
  | .connectError msg =>
    -- the source logs when is_critical_error(msg) holds, then returns None
    let _critical := is_critical_error msg
    none
  | .timedOut => none

/-- scan_tcp_ports (src/daemon/utils/scanner.rs lines 166-256), with the
per-port connection outcomes passed in; batch_scan's completion order is
modelled as input order (ordering is irrelevant to the claims settled
against this definition).  The function returns Ok of the collected open
ports; no per-port outcome produces an Err. -/
def scan_tcp_ports (outcomes : Nat → ConnectOutcome) (ports : List Nat) :
    Except String (List PortBase) :=
  Except.ok (ports.filterMap (fun port => tcp_probe port (outcomes port)))

/-- Fallback naming policy for discovered hosts
(src/server/discovery/impl/types.rs). -/
inductive HostNamingFallback where
  | ip
  | bestService
deriving DecidableEq, Repr

/-- Discovery kind (src/server/discovery/impl/types.rs); UUIDs are Nat. -/
inductive DiscoveryType where
  | selfReport (host_id : Nat)
  | network (subnet_ids : Option (List Nat)) (host_naming_fallback : HostNamingFallback)
  | docker (host_id : Nat) (host_naming_fallback : HostNamingFallback)
deriving DecidableEq, Repr

/-- Phase of a discovery session.
Modelled from the spec: DiscoveryPhase lives in
daemon/discovery/types/base.rs, which is not in the source snapshot; the
spec enumerates Pending, Starting, Started, Scanning, Complete, Failed,
Cancelled. -/
inductive DiscoveryPhase where
  | pending
  | starting
  | started
  | scanning
  | complete
  | failed
  | cancelled
deriving DecidableEq, Repr

/-- Progress payload for a discovery session
(src/server/daemons/impl/api.rs lines 53-65); timestamps are Nat ticks. -/
structure DiscoveryUpdatePayload where
  session_id : Nat
  daemon_id : Nat
  network_id : Nat
  phase : DiscoveryPhase
  discovery_type : DiscoveryType
  processed : Nat
  total_to_process : Nat
  error : Option String
  started_at : Option Nat
  finished_at : Option Nat
deriving DecidableEq, Repr

/-- DiscoveryUpdatePayload::new (src/server/daemons/impl/api.rs lines
67-86): a fresh session payload starts in phase Pending with empty
counters. -/
def DiscoveryUpdatePayload.new (session_id daemon_id network_id : Nat)
    (discovery_type : DiscoveryType) : DiscoveryUpdatePayload :=
  { session_id := session_id
    daemon_id := daemon_id
    network_id := network_id
    phase := .pending
    processed := 0
    discovery_type := discovery_type
    total_to_process := 0
    error := none
    started_at := none
    finished_at := none }

/-- Run type of a discovery definition (src/server/discovery/impl/types.rs). -/
inductive RunType where
  | scheduled (cron_schedule : String) (last_run : Option Nat) (enabled : Bool)
  | historical (results : DiscoveryUpdatePayload)
  | adHoc (last_run : Option Nat)
deriving DecidableEq, Repr

/-- Persisted discovery definition (src/server/discovery/impl/base.rs). -/
structure DiscoveryBase where
  discovery_type : DiscoveryType
  run_type : RunType
  name : String
  daemon_id : Nat
  network_id : Nat
deriving DecidableEq, Repr

/-- Discovery entity (src/server/discovery/impl/base.rs); created_at and
updated_at are Nat ticks. -/
structure Discovery where
  id : Nat
  created_at : Nat
  updated_at : Nat
  base : DiscoveryBase
deriving DecidableEq, Repr

/-- Discovery::disable (src/server/discovery/impl/base.rs lines 28-36).
The source matches on self.base.run_type, binding the enabled field into
the local variable _enabled by copy, and assigns false to that local; the
entity itself is left unchanged.  The embedding mirrors that shadow write:
the returned value is the input in every branch. -/
def Discovery.disable (d : Discovery) : Discovery :=
  match d.base.run_type with
  | RunType.scheduled _cron _last en =>
    let _enabled := en
    let _enabled := false
    d
  | _ => d

/-- Read the enabled flag of a Scheduled discovery. -/
def Discovery.scheduledEnabled (d : Discovery) : Option Bool :=
  match d.base.run_type with
  | RunType.scheduled _ _ en => some en
  | _ => none

/-- DiscoveryService::schedule_discovery
(src/server/discovery/service.rs lines 212-283), with the cron library
modelled by the predicate cronOk: fails when the discovery is not
Scheduled, when it is disabled, or when Job::new_async rejects the cron
expression. -/
def schedule_discovery (cronOk : String → Bool) (d : Discovery) :
    Except String Nat :=
  match d.base.run_type with
  | RunType.scheduled cron_schedule _ enabled =>
    if !enabled then Except.error "Discovery is not enabled"
    else if cronOk cron_schedule then Except.ok d.id
    else Except.error "invalid cron expression"
  | _ => Except.error "Discovery is not scheduled"

/-- Result of create_discovery: the returned entity and whether a job was
registered with the scheduler. -/
structure CreateDiscoveryResult where
  returned : Discovery
  job_registered : Bool
deriving DecidableEq, Repr

/-- DiscoveryService::create_discovery
(src/server/discovery/service.rs lines 60-95), with storage modelled as
returning the entity it is given (fresh-id assignment for nil ids is
irrelevant to the settled claims and elided): a Scheduled discovery is
stored, then registered with the scheduler; if registration fails the
entity is passed through Discovery::disable, stored again, and returned. -/
def create_discovery (cronOk : String → Bool) (discovery : Discovery) :
    CreateDiscoveryResult :=
  let created_discovery := discovery
  match created_discovery.base.run_type with
  | RunType.scheduled _ _ _ =>
    match schedule_discovery cronOk created_discovery with
    | Except.error _ =>
      let disabled_discovery := Discovery.disable created_discovery
      { returned := disabled_discovery, job_registered := false }
    | Except.ok _ => { returned := created_discovery, job_registered := true }
  | _ => { returned := created_discovery, job_registered := false }

/-- Confidence tier of a classification match
(src/server/services/impl/patterns.rs lines 66-73); the numeric values
mirror the source discriminants and give the derived order. -/
inductive MatchConfidence where
  | notApplicable
  | low
  | medium
  | high
  | certain
deriving DecidableEq, Repr

/-- Numeric discriminant of a confidence tier (as in the source enum). -/
def MatchConfidence.toNat : MatchConfidence → Nat
  | .notApplicable => 0
  | .low => 1
  | .medium => 2
  | .high => 3
  | .certain => 4

/-- Order on confidence tiers (derived PartialOrd/Ord in the source). -/
def MatchConfidence.gt (a b : MatchConfidence) : Bool := b.toNat < a.toNat

/-- Reason tree attached to a match
(src/server/services/impl/patterns.rs lines 57-64). -/
inductive MatchReason where
  | reason (text : String)
  | container (text : String) (children : List MatchReason)

/-- Match details: reason and confidence
(src/server/services/impl/patterns.rs lines 35-39). -/
structure MatchDetails where
  reason : MatchReason
  confidence : MatchConfidence

/-- Provenance metadata of a discovered entity
(src/server/shared/types/entities.rs lines 28-34); the timestamp is
dropped (it never takes part in any decision settled here). -/
structure DiscoveryMetadata where
  discovery_type : DiscoveryType
  daemon_id : Nat
deriving DecidableEq, Repr

/-- Source of an entity (src/server/shared/types/entities.rs lines 10-26). -/
inductive EntitySource where
  | manual
  | system
  | discovery (metadata : List DiscoveryMetadata)
  | discoveryWithMatch (metadata : List DiscoveryMetadata) (details : MatchDetails)
  | unknown

/-- Subnet type (src/server/subnets/impl/types.rs). -/
inductive SubnetType where
  | internet
  | remote
  | gateway
  | vpnTunnel
  | dmz
  | lan
  | wifi
  | iot
  | guest
  | dockerBridge
  | management
  | storage
  | unknown
  | noneType
deriving DecidableEq, Repr

/-- CIDR of a subnet; the claims settled against subnets only compare
CIDRs for equality and test IPv4 membership, so a CIDR is its network
address plus mask length. -/
structure Cidr where
  net : Ip
  maskLen : Nat
deriving DecidableEq, Repr

/-- Numeric value of an IPv4 address (none for IPv6). -/
def Ip.v4ToNat : Ip → Option Nat
  | .v4 a b c d => some (((a * 256 + b) * 256 + c) * 256 + d)
  | .v6 _ => none

/-- IPv4 membership test of a CIDR (cidr::IpCidr::contains); an IPv6
address is never inside the IPv4 CIDRs exercised here. -/
def Cidr.containsIp (c : Cidr) (ip : Ip) : Bool :=
  match c.net.v4ToNat, ip.v4ToNat with
  | some netv, some ipv => netv / 2 ^ (32 - c.maskLen) = ipv / 2 ^ (32 - c.maskLen)
  | _, _ => false

/-- Subnet base record (src/server/subnets/impl/base.rs lines 19-30). -/
structure SubnetBase where
  cidr : Cidr
  network_id : Nat
  name : String
  description : Option String
  subnet_type : SubnetType
  source : EntitySource

/-- Subnet entity (src/server/subnets/impl/base.rs lines 45-52). -/
structure Subnet where
  id : Nat
  base : SubnetBase

/-- PartialEq for Subnet (src/server/subnets/impl/base.rs lines 120-127):
equal when CIDR and network id both match, or when the ids match. -/
def Subnet.peq (a b : Subnet) : Bool :=
  (a.base.cidr = b.base.cidr && a.base.network_id = b.base.network_id) || a.id = b.id

/-- Source-compatibility guard of SubnetService::create
(src/server/subnets/service.rs lines 50-85): for two Discovery sources the
submitted record's first metadata entry is compared against each metadata
entry of the existing record — Docker-vs-Docker requires the same source
host, every other pairing is compatible; a submitted Discovery record with
no metadata is an error; a System source on either side is never
compatible; all remaining pairings are compatible. -/
def subnetSourceGuard (existing submitted : Subnet) : Except String Bool :=
  match existing.base.source, submitted.base.source with
  | EntitySource.discovery existing_metadata, EntitySource.discovery metadata =>
    match metadata.head? with
    | some md =>
      Except.ok (existing_metadata.any (fun other_m =>
        match md.discovery_type, other_m.discovery_type with
        | DiscoveryType.docker host_id _, DiscoveryType.docker other_host_id _ =>
          host_id = other_host_id
        | _, _ => true))
    | none =>
      Except.error
        "Error comparing discovered subnets during creation: subnet missing discovery metadata"
  | EntitySource.system, _ => Except.ok false
  | _, EntitySource.system => Except.ok false
  | _, _ => Except.ok true

/-- Result of SubnetService::create: the storage contents after the call
and the returned subnet. -/
structure SubnetCreateResult where
  storage : List Subnet
  returned : Subnet

/-- SubnetService::create (src/server/subnets/service.rs lines 32-104),
with storage modelled as the list of persisted subnets and fresh_id the id
a nil-id submission receives: the submission is compared (Subnet
PartialEq) against the stored subnets of its network; the first match is
returned as-is when the source guard accepts it, otherwise — and when
nothing matches — the submission is inserted and returned. -/
def SubnetService.create (storage : List Subnet) (fresh_id : Nat)
    (subnet : Subnet) : Except String SubnetCreateResult :=
  let all_subnets := storage.filter (fun s => s.base.network_id = subnet.base.network_id)
  let subnet := if subnet.id = 0 then { subnet with id := fresh_id } else subnet
  match all_subnets.find? (fun s => Subnet.peq subnet s) with
  | some existing_subnet =>
    match subnetSourceGuard existing_subnet subnet with
    | Except.error e => Except.error e
    | Except.ok true =>
      Except.ok { storage := storage, returned := existing_subnet }
    | Except.ok false =>
      Except.ok { storage := storage ++ [subnet], returned := subnet }
  | none => Except.ok { storage := storage ++ [subnet], returned := subnet }

/-- Live session registry and fan-out state of the coordinator's
DiscoveryService (src/server/discovery/service.rs lines 25-32): the
session map, the per-daemon queues, and the payloads sent on the
broadcast channel. -/
structure CoordState where
  sessions : List (Nat × DiscoveryUpdatePayload)
  daemon_sessions : List (Nat × List Nat)
  broadcasts : List DiscoveryUpdatePayload
deriving DecidableEq, Repr

/-- Lookup in an association list (HashMap::get). -/
def assocGet {α : Type} (l : List (Nat × α)) (k : Nat) : Option α :=
  (l.find? (fun kv => kv.fst = k)).map (fun kv => kv.snd)

/-- Insert or replace in an association list (HashMap::insert). -/
def assocPut {α : Type} (l : List (Nat × α)) (k : Nat) (v : α) : List (Nat × α) :=
  if (l.find? (fun kv => kv.fst = k)).isSome then
    l.map (fun kv => if kv.fst = k then (k, v) else kv)
  else l ++ [(k, v)]

/-- HashMap::entry(k).or_default() followed by push(v). -/
def assocPush (l : List (Nat × List Nat)) (k v : Nat) : List (Nat × List Nat) :=
  match assocGet l k with
  | some q => assocPut l k (q ++ [v])
  | none => l ++ [(k, [v])]

/-- DiscoveryService::start_session
(src/server/discovery/service.rs lines 306-366), with the fresh session id
and the outcome of the dispatch RPC (send_discovery_request) passed in:
the Pending payload is inserted into the session map and the daemon queue
first; the dispatch is attempted only when the daemon has no running
session, and a dispatch error is returned as-is — the error path performs
no further registry write and no broadcast. -/
def start_session (st : CoordState) (discovery : Discovery) (session_id : Nat)
    (dispatch : Except String Unit) :
    CoordState × Except String DiscoveryUpdatePayload :=
  let session_payload := DiscoveryUpdatePayload.new session_id
    discovery.base.daemon_id discovery.base.network_id discovery.base.discovery_type
  let st := { st with sessions := assocPut st.sessions session_id session_payload }
  let daemon_is_running_discovery :=
    match assocGet st.daemon_sessions discovery.base.daemon_id with
    | some daemon_sessions => !daemon_sessions.isEmpty
    | none => false
  let st := { st with
    daemon_sessions := assocPush st.daemon_sessions discovery.base.daemon_id session_id }
  if !daemon_is_running_discovery then
    match dispatch with
    | Except.error e => (st, Except.error e)
    | Except.ok _ =>
      ({ st with broadcasts := st.broadcasts ++ [session_payload] },
        Except.ok session_payload)
  else
    ({ st with broadcasts := st.broadcasts ++ [session_payload] },
      Except.ok session_payload)

/-- Web protocol of a probed endpoint.
Modelled from the spec (services/impl/endpoints.rs is not in the source
snapshot): HTTPS is preferred on the well-known HTTPS ports. -/
inductive WebProtocol where
  | http
  | https
deriving DecidableEq, Repr

/-- An HTTP(S) endpoint: protocol, port and path.
Modelled from the spec (services/impl/endpoints.rs is not in the source
snapshot); the resolved IP is irrelevant to pattern matching, which
explicitly compares endpoints without it, and is elided. -/
structure Endpoint where
  protocol : WebProtocol
  port_base : PortBase
  path : String
deriving DecidableEq, Repr

/-- Endpoint::for_pattern: the endpoint a pattern denotes, on the
well-known HTTPS ports an HTTPS one.
Modelled from the spec (the well-known HTTPS set is 443, 8443, 9443,
8006, 8123). -/
def Endpoint.for_pattern (port_base : PortBase) (path : String) : Endpoint :=
  { protocol :=
      if [443, 8443, 9443, 8006, 8123].contains port_base.number
      then WebProtocol.https else WebProtocol.http
    port_base := port_base
    path := path }

/-- A collected endpoint response (services/impl/endpoints.rs).
Modelled from the spec: the response body paired with its endpoint. -/
structure EndpointResponse where
  endpoint : Endpoint
  response : String
deriving DecidableEq, Repr

/-- Virtualization context of a discovered service.
Modelled from the spec (services/impl/virtualization.rs is not in the
source snapshot): a Docker container id. -/
inductive ServiceVirtualization where
  | docker (container_id : Nat)
deriving DecidableEq, Repr

/-- Network interface of a host.
Modelled from the spec (hosts/impl/interfaces.rs is not in the source
snapshot): an IP bound to a subnet with an optional MAC; the MAC is kept
as its string rendering, which is all the OUI lookup consumes. -/
structure Interface where
  id : Nat
  name : Option String
  subnet_id : Nat
  ip_address : Ip
  mac_address : Option String
deriving DecidableEq, Repr

/-- A port entity: a PortBase with an id (hosts/impl/ports.rs).
Modelled from the spec; Port::new assigns a fresh UUID, modelled by
drawing from the id counter. -/
structure Port where
  id : Nat
  base : PortBase
deriving DecidableEq, Repr

/-- Port::new with the id counter threaded through. -/
def Port.new (base : PortBase) (ctr : Nat) : Port × Nat :=
  ({ id := ctr, base := base }, ctr + 1)

/-- Classification match result
(src/server/services/impl/patterns.rs lines 27-33). -/
structure MatchResult where
  ports : List Port
  endpoint : Option Endpoint
  mac_vendor : Option String
  details : MatchDetails

/-- Discovery-signal pattern of a service definition
(src/server/services/impl/patterns.rs lines 89-134).  Following the
spec's design note for targets without closures-as-data, Custom carries a
predicate id resolved through the classifier environment instead of a
function pointer.  notPat and nonePat embed the source's Not and None. -/
inductive Pattern where
  | anyOf (patterns : List Pattern)
  | allOf (patterns : List Pattern)
  | notPat (pattern : Pattern)
  | port (port_base : PortBase)
  | endpoint (port_base : PortBase) (path : String) (expected_response : String)
  | subnetIsType (subnet_type : SubnetType)
  | isGateway
  | macVendor (vendor : String)
  | custom (pred_id : Nat) (reason : String) (no_match_reason : String)
      (confidence : MatchConfidence)
  | dockerContainer
  | nonePat

mutual
/-- Pattern::ports (src/server/services/impl/patterns.rs lines 550-558):
the ports a pattern needs scanned. -/
def Pattern.ports : Pattern → List PortBase
  | .port p => [p]
  | .anyOf ps => Pattern.portsList ps
  | .allOf ps => Pattern.portsList ps
  | _ => []
def Pattern.portsList : List Pattern → List PortBase
  | [] => []
  | p :: ps => Pattern.ports p ++ Pattern.portsList ps
end

mutual
/-- Pattern::contains_gateway_ip_pattern
(src/server/services/impl/patterns.rs lines 573-581). -/
def Pattern.containsGatewayIp : Pattern → Bool
  | .isGateway => true
  | .anyOf ps => Pattern.containsGatewayIpList ps
  | .allOf ps => Pattern.containsGatewayIpList ps
  | _ => false
def Pattern.containsGatewayIpList : List Pattern → Bool
  | [] => false
  | p :: ps => Pattern.containsGatewayIp p || Pattern.containsGatewayIpList ps
end

/-- A service definition: the capability set the registry exposes
({id, name, discovery_pattern, is_generic, logo}); the registry itself is
data out of the engine's scope, so definitions are arbitrary values of
this shape (spec design note on the link-time plugin registry). -/
structure ServiceDefinition where
  id : Nat
  name : String
  discovery_pattern : Pattern
  generic : Bool
  logo : Bool

/-- A binding of a service: interface-only, or port with optional
interface (services/impl/bindings.rs).
Modelled from the spec; each binding carries its own id. -/
inductive Binding where
  | interface (id : Nat) (interface_id : Option Nat)
  | port (id : Nat) (port_id : Nat) (interface_id : Option Nat)
deriving DecidableEq, Repr

/-- Binding::id. -/
def Binding.bid : Binding → Nat
  | .interface i _ => i
  | .port i _ _ => i

/-- Service base record (services/impl/base.rs).
Modelled from the spec: classification (the definition), bindings, and
the provenance source carrying the match details. -/
structure ServiceBase where
  service_definition : ServiceDefinition
  bindings : List Binding
  source : EntitySource

/-- Service entity (services/impl/base.rs). Modelled from the spec. -/
structure Service where
  id : Nat
  base : ServiceBase

/-- Per-candidate scan evidence, ServiceMatchBaselineParams
(services/impl/base.rs, as destructured by patterns.rs and
discover_services). -/
structure ServiceMatchBaselineParams where
  subnet : Subnet
  interface : Interface
  all_ports : List PortBase
  endpoint_responses : List EndpointResponse
  virtualization : Option ServiceVirtualization

/-- Per-definition match parameters, ServiceMatchServiceParams
(services/impl/base.rs). -/
structure ServiceMatchServiceParams where
  service_definition : ServiceDefinition
  matched_services : List Service
  unbound_ports : List PortBase

/-- Full parameter set handed to Pattern::matches,
DiscoverySessionServiceMatchParams (services/impl/base.rs). -/
structure DiscoverySessionServiceMatchParams where
  service_params : ServiceMatchServiceParams
  baseline_params : ServiceMatchBaselineParams
  daemon_id : Nat
  discovery_type : DiscoveryType
  network_id : Nat
  gateway_ips : List Ip
  host_id : Nat

/-- The slice of the match parameters a Custom predicate can read
(everything except the definition under evaluation and the services
matched so far, which would make the predicate table circular). -/
structure CustomParams where
  baseline_params : ServiceMatchBaselineParams
  unbound_ports : List PortBase
  daemon_id : Nat
  network_id : Nat
  host_id : Nat
  gateway_ips : List Ip
  discovery_type : DiscoveryType

/-- Environment of the classifier: the definition registry
(ServiceDefinitionRegistry::all_service_definitions), the generic Gateway
definition's id, the OUI database as a lookup from MAC string to company
name, the Custom predicate table, and PortBase::is_custom (ports.rs is
not in the source snapshot). -/
structure ClassifierEnv where
  definitions : List ServiceDefinition
  gateway_def_id : Nat
  oui_lookup : String → Option String
  custom_eval : Nat → CustomParams → Bool
  is_custom_port : PortBase → Bool

/-- MatchDetails::reason_string
(src/server/services/impl/patterns.rs lines 49-55). -/
def MatchReason.text : MatchReason → String
  | .reason s => s
  | .container s _ => s

/-- Normalisation used by the MacVendor arm: trim, lowercase, keep
alphanumeric characters (the trim is subsumed by the filter). -/
def vendorNormalize (s : String) : String :=
  String.mk ((strLower s).toList.filter Char.isAlphanum)

/-- CustomParams as Pattern::matches builds them from its parameters. -/
def DiscoverySessionServiceMatchParams.customParams
    (params : DiscoverySessionServiceMatchParams) : CustomParams :=
  { baseline_params := params.baseline_params
    unbound_ports := params.service_params.unbound_ports
    daemon_id := params.daemon_id
    network_id := params.network_id
    host_id := params.host_id
    gateway_ips := params.gateway_ips
    discovery_type := params.discovery_type }

mutual
/-- Pattern::matches (src/server/services/impl/patterns.rs lines 153-547)
with the id counter for Port::new threaded through and the environment
supplying the registry, OUI database, Custom predicate table and
PortBase::is_custom.  Reason strings are abbreviated, everything that
feeds a decision is kept.  In the AnyOf and AllOf arms the source folds
the children's first endpoint and first mac vendor into accumulators but
builds the returned MatchResult with None for both fields; the embedding
mirrors that by binding the accumulators and not using them. -/
def Pattern.matchesSt (env : ClassifierEnv)
    (params : DiscoverySessionServiceMatchParams) :
    Pattern → Nat → Except String MatchResult × Nat
  | .port port_base, ctr =>
    match params.service_params.unbound_ports.find? (fun p => p = port_base) with
    | some matched_port =>
      let all_other_services_ports :=
        dedupConsec (sortPorts
          ((env.definitions.filter
            (fun s => s.id ≠ params.service_params.service_definition.id)).flatMap
            (fun s => Pattern.ports s.discovery_pattern)))
      let is_unique_to_service :=
        env.is_custom_port port_base && !(all_other_services_ports.contains port_base)
      let matched :=
        if env.is_custom_port port_base && is_unique_to_service then
          ("Port is open and is not used in other service match patterns",
            MatchConfidence.medium)
        else
          ("Port is open but is used in other service match patterns",
            MatchConfidence.low)
      let (new_port, ctr) := Port.new matched_port ctr
      (Except.ok
        { ports := [new_port], endpoint := none, mac_vendor := none
          details := { reason := .reason matched.1, confidence := matched.2 } }, ctr)
    | none => (Except.error "Port is not open", ctr)
  | .endpoint port_base path expected_response, ctr =>
    let pat_endpoint := Endpoint.for_pattern port_base path
    match params.baseline_params.endpoint_responses.find? (fun actual =>
        actual.endpoint.protocol = pat_endpoint.protocol
        && actual.endpoint.port_base.number = pat_endpoint.port_base.number
        && actual.endpoint.path = pat_endpoint.path
        && strContainsSub (strLower actual.response) (strLower expected_response)) with
    | some actual =>
      let (new_port, ctr) := Port.new actual.endpoint.port_base ctr
      (Except.ok
        { ports := [new_port], endpoint := some actual.endpoint, mac_vendor := none
          details := { reason := .reason "Response contained the expected text"
                       confidence := MatchConfidence.high } }, ctr)
    | none => (Except.error "Response did not contain the expected text", ctr)
  | .macVendor vendor_string, ctr =>
    (match params.baseline_params.interface.mac_address with
     | some mac =>
       match env.oui_lookup mac with
       | some company_name =>
         if vendorNormalize vendor_string = vendorNormalize company_name then
           Except.ok
             { ports := [], endpoint := none, mac_vendor := some company_name
               details := { reason := .reason "Mac address is from the vendor"
                            confidence := MatchConfidence.medium } }
         else Except.error "Mac address is not from the vendor"
       | none => Except.error "Could not find vendor for mac address in Oui database"
     | none => Except.error "Interface does not have a mac address", ctr)
  | .notPat pattern, ctr =>
    (match Pattern.matchesSt env params pattern ctr with
     | (Except.ok result, ctr) =>
       (Except.error (MatchReason.text result.details.reason), ctr)
     | (Except.error e, ctr) =>
       (Except.ok
         { ports := [], endpoint := none, mac_vendor := none
           details := { reason := .reason e, confidence := MatchConfidence.low } }, ctr))
  | .anyOf patterns, ctr =>
    let (results, ctr) := Pattern.matchesListSt env params patterns ctr
    let oks := results.filterMap (fun r =>
      match r with | Except.ok v => some v | Except.error _ => none)
    let any_matched := !oks.isEmpty
    let ports := oks.flatMap (fun v => v.ports)
    let reasons := oks.map (fun v => v.details.reason)
    let _endpoint := (oks.filterMap (fun v => v.endpoint)).head?
    let _mac_vendor := (oks.filterMap (fun v => v.mac_vendor)).head?
    let confidence := oks.foldl
      (fun acc v =>
        if MatchConfidence.gt v.details.confidence acc then v.details.confidence else acc)
      MatchConfidence.low
    if any_matched then
      (Except.ok
        { ports := ports, endpoint := none, mac_vendor := none
          details := { reason := .container "Any of" reasons
                       confidence := confidence } }, ctr)
    else (Except.error "no pattern of the AnyOf matched", ctr)
  | .allOf patterns, ctr =>
    let (results, ctr) := Pattern.matchesListSt env params patterns ctr
    let oks := results.filterMap (fun r =>
      match r with | Except.ok v => some v | Except.error _ => none)
    let all_matched := results.all (fun r =>
      match r with | Except.ok _ => true | Except.error _ => false)
    let ports := oks.flatMap (fun v => v.ports)
    let reasons := oks.map (fun v => v.details.reason)
    let _endpoint := (oks.filterMap (fun v => v.endpoint)).head?
    let _mac_vendor := (oks.filterMap (fun v => v.mac_vendor)).head?
    if all_matched then
      let matched_confidences :=
        List.insertionSort
          (fun a b => MatchConfidence.toNat a ≤ MatchConfidence.toNat b)
          (oks.map (fun v => v.details.confidence))
      let max_confidence := matched_confidences.getLast?.getD MatchConfidence.low
      let confidence :=
        if (max_confidence = MatchConfidence.low
              || max_confidence = MatchConfidence.medium)
            && matched_confidences.length > 3 then
          match max_confidence with
          | MatchConfidence.low => MatchConfidence.medium
          | MatchConfidence.medium => MatchConfidence.high
          | c => c
        else max_confidence
      (Except.ok
        { ports := ports, endpoint := none, mac_vendor := none
          details := { reason := .container "All of" reasons
                       confidence := confidence } }, ctr)
    else (Except.error "a pattern of the AllOf did not match", ctr)
  | .isGateway, ctr =>
    let gateway_ips_in_subnet := params.gateway_ips.filter
      (fun g => params.baseline_params.subnet.base.cidr.containsIp g)
    let count_gateways_in_subnet := gateway_ips_in_subnet.length
    let host_ip_in_routing_table :=
      gateway_ips_in_subnet.contains params.baseline_params.interface.ip_address
    let last_octet_1_or_254 :=
      match params.baseline_params.interface.ip_address with
      | .v4 _ _ _ d => d = 1 || d = 254
      | .v6 segments => segments.getLast?.getD 0 = 1 || segments.getLast?.getD 0 = 254
    if host_ip_in_routing_table then
      (Except.ok
        { ports := [], endpoint := none, mac_vendor := none
          details := { reason := .reason "Host IP address is in routing table of daemon"
                       confidence := MatchConfidence.high } }, ctr)
    else if last_octet_1_or_254 && count_gateways_in_subnet = 0 then
      (Except.ok
        { ports := [], endpoint := none, mac_vendor := none
          details := { reason :=
                         .reason "No other gateways in subnet and IP address ends in 1 or 254"
                       confidence := MatchConfidence.high } }, ctr)
    else (Except.error "IP address is not in routing table", ctr)
  | .subnetIsType subnet_type, ctr =>
    if params.baseline_params.subnet.base.subnet_type = subnet_type then
      (Except.ok
        { ports := [], endpoint := none, mac_vendor := none
          details := { reason := .reason "Subnet is of the type"
                       confidence := MatchConfidence.low } }, ctr)
    else (Except.error "Subnet is not of the type", ctr)
  | .custom pred_id reason no_match_reason _confidence, ctr =>
    if env.custom_eval pred_id params.customParams then
      (Except.ok
        { ports := [], endpoint := none, mac_vendor := none
          details := { reason := .reason reason, confidence := _confidence } }, ctr)
    else (Except.error no_match_reason, ctr)
  | .dockerContainer, ctr =>
    (match params.baseline_params.virtualization with
     | some (ServiceVirtualization.docker _) =>
       Except.ok
         { ports := [], endpoint := none, mac_vendor := none
           details := { reason := .reason "Service is running in docker container"
                        confidence := MatchConfidence.low } }
     | none => Except.error "Service is not running in a docker container", ctr)
  | .nonePat, ctr => (Except.error "No match pattern provided", ctr)

/-- Evaluation of a list of child patterns in order, threading the id
counter left to right (the source's for_each over the children). -/
def Pattern.matchesListSt (env : ClassifierEnv)
    (params : DiscoverySessionServiceMatchParams) :
    List Pattern → Nat → List (Except String MatchResult) × Nat
  | [], ctr => ([], ctr)
  | p :: ps, ctr =>
    let (r, ctr) := Pattern.matchesSt env params p ctr
    let (rs, ctr) := Pattern.matchesListSt env params ps ctr
    (r :: rs, ctr)
end

/-- How other systems address a host (hosts/impl/targets.rs).
Modelled from the spec: hostname, a service binding, an interface, or
nothing. -/
inductive HostTarget where
  | noneT
  | hostnameT
  | serviceBinding (binding_id : Nat)
  | interfaceAddr (interface_id : Nat)
deriving DecidableEq, Repr

/-- Host base record (hosts/impl/base.rs).
Modelled from the spec, with the fields process_host and
discover_services read and write. -/
structure HostBase where
  name : String
  hostname : Option String
  target : HostTarget
  network_id : Nat
  interfaces : List Interface
  services : List Nat
  ports : List Port
  source : EntitySource
  virtualization : Option ServiceVirtualization
  hidden : Bool

/-- Host entity (hosts/impl/base.rs). Modelled from the spec. -/
structure Host where
  id : Nat
  base : HostBase

/-- Host::get_port: the host's port with the given id.
Modelled from the spec (hosts/impl/base.rs is not in the source
snapshot). -/
def Host.get_port (h : Host) (port_id : Nat) : Option Port :=
  h.base.ports.find? (fun p => p.id = port_id)

/-- Host::add_service. Modelled from the spec. -/
def Host.add_service (h : Host) (service_id : Nat) : Host :=
  { h with base := { h.base with services := h.base.services ++ [service_id] } }

/-- Build one Port binding per claimed port, drawing binding ids from the
counter; part of the spec-modelled Service::from_discovery. -/
def mkPortBindings : List Port → Nat → List Binding × Nat
  | [], ctr => ([], ctr)
  | p :: ps, ctr =>
    let (rest, ctr2) := mkPortBindings ps (ctr + 1)
    (Binding.port ctr p.id none :: rest, ctr2)

/-- Service::from_discovery.
Modelled from the spec: services/impl/base.rs is not in the source
snapshot.  The definition's discovery pattern is evaluated against the
match parameters; on no match nothing is produced; on a match a Service
is created whose bindings are one Port binding per port claimed by the
MatchResult — except that a pattern using IsGateway as a positive signal
makes a Layer3 service that binds the interface instead (the warning on
IsGateway in patterns.rs) — and whose source carries the discovery
provenance and the match details. -/
def Service.from_discovery (env : ClassifierEnv)
    (params : DiscoverySessionServiceMatchParams) (ctr : Nat) :
    Option ((Service × MatchResult) × Nat) :=
  match Pattern.matchesSt env params
      params.service_params.service_definition.discovery_pattern ctr with
  | (Except.error _, _) => none
  | (Except.ok result, ctr) =>
    let (bindings, ctr) :=
      if Pattern.containsGatewayIp
          params.service_params.service_definition.discovery_pattern then
        ([Binding.interface ctr (some params.baseline_params.interface.id)], ctr + 1)
      else mkPortBindings result.ports ctr
    let service : Service :=
      { id := ctr
        base :=
          { service_definition := params.service_params.service_definition
            bindings := bindings
            source := EntitySource.discoveryWithMatch
              [{ discovery_type := params.discovery_type
                 daemon_id := params.daemon_id }] result.details } }
    some ((service, result), ctr + 1)

/-- Priority tier of a definition in discover_services
(src/daemon/discovery/service/base.rs lines 411-419): non-generic
definitions first, generic non-Gateway definitions second, the generic
Gateway last. -/
def definitionTier (env : ClassifierEnv) (s : ServiceDefinition) : Nat :=
  if !s.generic then 0
  else if s.generic && s.id ≠ env.gateway_def_id then 1
  else 2

/-- Ranking score of a matched service
(src/daemon/discovery/service/base.rs lines 474-486): confidence plus a
has-logo bonus for services with match provenance, NotApplicable for the
rest. -/
def serviceScore (s : Service) : Nat :=
  match s.base.source with
  | EntitySource.discoveryWithMatch _ details =>
    details.confidence.toNat + (if s.base.service_definition.logo then 1 else 0)
  | _ => MatchConfidence.notApplicable.toNat

/-- State of the definition loop in discover_services: the host being
assembled, the matched services, the working unbound-port set, the id
counter, and (as instrumentation for stating the port-binding
discipline) the accumulated bound_port_bases of all iterations. -/
structure DiscoverState where
  host : Host
  services : List Service
  l4_unbound_ports : List PortBase
  bound_bases : List PortBase
  ctr : Nat

/-- Body of the definition loop of discover_services
(src/daemon/discovery/service/base.rs lines 422-472): evaluate the
definition; on a match, first look among the service's bindings for a
Port binding whose port — resolved against the ports currently on the
host — matches the result's endpoint, and upgrade the host target to
that binding when the target is Hostname or None; then append the
result's ports to the host's ports, remove their bases from the working
unbound set, and record the service. -/
def discover_step (env : ClassifierEnv)
    (baseline_params : ServiceMatchBaselineParams)
    (daemon_id network_id : Nat) (discovery_type : DiscoveryType)
    (gateway_ips : List Ip) (st : DiscoverState)
    (service_definition : ServiceDefinition) : DiscoverState :=
  let params : DiscoverySessionServiceMatchParams :=
    { service_params :=
        { service_definition := service_definition
          matched_services := st.services
          unbound_ports := st.l4_unbound_ports }
      baseline_params := baseline_params
      daemon_id := daemon_id
      discovery_type := discovery_type
      network_id := network_id
      gateway_ips := gateway_ips
      host_id := st.host.id }
  match Service.from_discovery env params st.ctr with
  | none => st
  | some ((service, result), ctr) =>
    let host := st.host
    let found_binding := service.base.bindings.find? (fun b =>
      match b with
      | Binding.interface _ _ => false
      | Binding.port _ port_id _ =>
        match host.get_port port_id with
        | some port => result.endpoint.any (fun e => e.port_base = port.base)
        | none => false)
    let host :=
      match found_binding with
      | some binding =>
        if match host.base.target with
           | HostTarget.hostnameT => true
           | HostTarget.noneT => true
           | _ => false then
          { host with base := { host.base with
              target := HostTarget.serviceBinding binding.bid } }
        else host
      | none => host
    let bound_port_bases := result.ports.map (fun p => p.base)
    let host := { host with base := { host.base with
      ports := host.base.ports ++ result.ports } }
    let l4_unbound_ports :=
      st.l4_unbound_ports.filter (fun p => !bound_port_bases.contains p)
    { host := host
      services := st.services ++ [service]
      l4_unbound_ports := l4_unbound_ports
      bound_bases := st.bound_bases ++ bound_port_bases
      ctr := ctr }

/-- The definition loop of discover_services, over the sorted definition
list. -/
def discover_loop (env : ClassifierEnv)
    (baseline_params : ServiceMatchBaselineParams)
    (daemon_id network_id : Nat) (discovery_type : DiscoveryType)
    (gateway_ips : List Ip) :
    List ServiceDefinition → DiscoverState → DiscoverState
  | [], st => st
  | d :: ds, st =>
    discover_loop env baseline_params daemon_id network_id discovery_type gateway_ips
      ds (discover_step env baseline_params daemon_id network_id discovery_type
        gateway_ips st d)

/-- Materialise the residual unbound port bases as Port entities
(Port::new over the leftover l4_unbound_ports). -/
def materializePorts : List PortBase → Nat → List Port × Nat
  | [], ctr => ([], ctr)
  | pb :: rest, ctr =>
    let (ps, ctr2) := materializePorts rest (ctr + 1)
    ({ id := ctr, base := pb } :: ps, ctr2)

/-- discover_services (src/daemon/discovery/service/base.rs lines
390-495): sort the registry's definitions into the three priority tiers
(a stable sort), run the definition loop starting from all open ports
unbound, rank the matched services by score descending (stable), record
their ids on the host, and append the residual unbound ports to the
host's port list.  Returns the host, the ranked services and the final
id counter. -/
def discover_services (env : ClassifierEnv) (host : Host)
    (baseline_params : ServiceMatchBaselineParams)
    (daemon_id network_id : Nat) (discovery_type : DiscoveryType)
    (gateway_ips : List Ip) (ctr : Nat) : (Host × List Service) × Nat :=
  let l4_unbound_ports := baseline_params.all_ports
  let sorted_service_definitions :=
    List.insertionSort (fun a b => definitionTier env a ≤ definitionTier env b)
      env.definitions
  let st := discover_loop env baseline_params daemon_id network_id discovery_type
    gateway_ips sorted_service_definitions
    { host := host, services := [], l4_unbound_ports := l4_unbound_ports
      bound_bases := [], ctr := ctr }
  let services :=
    List.insertionSort (fun a b => serviceScore b ≤ serviceScore a) st.services
  let host := services.foldl (fun h s => h.add_service s.id) st.host
  let (residual_ports, ctr) := materializePorts st.l4_unbound_ports st.ctr
  let host := { host with base := { host.base with
    ports := host.base.ports ++ residual_ports } }
  ((host, services), ctr)

/-- All bound port bases a service's Port bindings reference, resolved
against a host's port list. -/
def Service.boundBases (h : Host) (s : Service) : List PortBase :=
  s.base.bindings.filterMap (fun b =>
    match b with
    | Binding.port _ port_id _ => (h.get_port port_id).map (fun p => p.base)
    | _ => none)

/-- The state the definition loop of discover_services ends in, before
ranking, service registration and residual-port materialisation. -/
def discoverFinalState (env : ClassifierEnv) (host : Host)
    (baseline_params : ServiceMatchBaselineParams)
    (daemon_id network_id : Nat) (discovery_type : DiscoveryType)
    (gateway_ips : List Ip) (ctr : Nat) : DiscoverState :=
  discover_loop env baseline_params daemon_id network_id discovery_type gateway_ips
    (List.insertionSort (fun a b => definitionTier env a ≤ definitionTier env b)
      env.definitions)
    { host := host, services := [], l4_unbound_ports := baseline_params.all_ports
      bound_bases := [], ctr := ctr }

/-- Connection outcomes of a host whose port 80 probe hits
file-descriptor exhaustion while every other probe connects. -/
def demoOutcomes : Nat → ConnectOutcome := fun port =>
  if port = 80 then ConnectOutcome.connectError "too many open files"
  else ConnectOutcome.connected

/-- A cron library accepting exactly one well-formed expression. -/
def demoCronOk : String → Bool := fun s => s = "0 0 * * * *"

/-- A Scheduled discovery definition whose cron expression is malformed
and whose enabled flag is true (the spec's scenario 6). -/
def demoBadCronDiscovery : Discovery :=
  { id := 7
    created_at := 0
    updated_at := 0
    base :=
      { discovery_type := DiscoveryType.network none HostNamingFallback.bestService
        run_type := RunType.scheduled "not a cron" none true
        name := "Nightly scan"
        daemon_id := 3
        network_id := 4 } }

/-- An empty coordinator session registry. -/
def emptyCoord : CoordState := { sessions := [], daemon_sessions := [], broadcasts := [] }

/-- An ad-hoc discovery for daemon 9 on network 2. -/
def demoDiscovery5 : Discovery :=
  { id := 8
    created_at := 0
    updated_at := 0
    base :=
      { discovery_type := DiscoveryType.network none HostNamingFallback.bestService
        run_type := RunType.adHoc none
        name := "Ad hoc scan"
        daemon_id := 9
        network_id := 2 } }

/-- The Docker bridge CIDR 172.17.0.0/16. -/
def demoCidr : Cidr := { net := Ip.v4 172 17 0 0, maskLen := 16 }

/-- A stored subnet of network 5 with source System. -/
def demoSystemSubnet : Subnet :=
  { id := 1
    base :=
      { cidr := demoCidr
        network_id := 5
        name := "seeded"
        description := none
        subnet_type := SubnetType.lan
        source := EntitySource.system } }

/-- An agent-submitted subnet (nil id) with the same CIDR and network,
discovered by a network scan on daemon 3. -/
def demoSubmittedSubnet : Subnet :=
  { id := 0
    base :=
      { cidr := demoCidr
        network_id := 5
        name := "172.17.0.0/16"
        description := none
        subnet_type := SubnetType.lan
        source := EntitySource.discovery
          [{ discovery_type := DiscoveryType.network none HostNamingFallback.bestService
             daemon_id := 3 }] } }

/-- A stored subnet created by a Docker discovery on host 3. -/
def demoDockerExisting : Subnet :=
  { id := 4
    base :=
      { cidr := demoCidr
        network_id := 5
        name := "bridge"
        description := none
        subnet_type := SubnetType.dockerBridge
        source := EntitySource.discovery
          [{ discovery_type := DiscoveryType.docker 3 HostNamingFallback.bestService
             daemon_id := 7 }] } }

/-- The same Docker subnet resubmitted from the same host 3. -/
def demoDockerResubmit : Subnet :=
  { id := 0
    base :=
      { cidr := demoCidr
        network_id := 5
        name := "bridge"
        description := none
        subnet_type := SubnetType.dockerBridge
        source := EntitySource.discovery
          [{ discovery_type := DiscoveryType.docker 3 HostNamingFallback.bestService
             daemon_id := 7 }] } }

/-- The interface of the scanned host 192.0.2.10. -/
def demoInterface : Interface :=
  { id := 21
    name := none
    subnet_id := 6
    ip_address := Ip.v4 192 0 2 10
    mac_address := none }

/-- The subnet 192.0.2.0/24 the scan runs in. -/
def demoLanSubnet : Subnet :=
  { id := 6
    base :=
      { cidr := { net := Ip.v4 192 0 2 0, maskLen := 24 }
        network_id := 5
        name := "lan"
        description := none
        subnet_type := SubnetType.lan
        source := EntitySource.manual } }

/-- A classifier environment with an empty registry and empty lookup
tables. -/
def demoEnv : ClassifierEnv :=
  { definitions := []
    gateway_def_id := 0
    oui_lookup := fun _ => none
    custom_eval := fun _ _ => false
    is_custom_port := fun _ => false }

/-- Match parameters for a Docker-container candidate (used to exercise
the AnyOf and AllOf arms on a matching child). -/
def demoParams : DiscoverySessionServiceMatchParams :=
  { service_params :=
      { service_definition :=
          { id := 1, name := "X", discovery_pattern := Pattern.nonePat
            generic := false, logo := false }
        matched_services := []
        unbound_ports := [] }
    baseline_params :=
      { subnet := demoLanSubnet
        interface := demoInterface
        all_ports := []
        endpoint_responses := []
        virtualization := some (ServiceVirtualization.docker 1) }
    daemon_id := 3
    discovery_type := DiscoveryType.network none HostNamingFallback.bestService
    network_id := 5
    gateway_ips := []
    host_id := 31 }

/-- A service definition recognising Nginx Proxy Manager by its endpoint
response on TCP 80 (the spec's scenario 1). -/
def demoNpmDefinition : ServiceDefinition :=
  { id := 11
    name := "Nginx Proxy Manager"
    discovery_pattern :=
      Pattern.endpoint { number := 80, protocol := TransportProtocol.tcp } "/"
        "nginx proxy manager"
    generic := false
    logo := true }

/-- A classifier environment whose registry holds the one Nginx Proxy
Manager definition. -/
def demoNpmEnv : ClassifierEnv :=
  { definitions := [demoNpmDefinition]
    gateway_def_id := 99
    oui_lookup := fun _ => none
    custom_eval := fun _ _ => false
    is_custom_port := fun _ => false }

/-- The collected endpoint response of 192.0.2.10 port 80. -/
def demoNpmResponse : EndpointResponse :=
  { endpoint :=
      { protocol := WebProtocol.http
        port_base := { number := 80, protocol := TransportProtocol.tcp }
        path := "/" }
    response := "Nginx Proxy Manager login" }

/-- Scan evidence of 192.0.2.10: TCP 80 open, one endpoint response, no
virtualization. -/
def demoNpmBaseline : ServiceMatchBaselineParams :=
  { subnet := demoLanSubnet
    interface := demoInterface
    all_ports := [{ number := 80, protocol := TransportProtocol.tcp }]
    endpoint_responses := [demoNpmResponse]
    virtualization := none }

/-- The host candidate before classification: unresolved hostname, target
None, no ports or services (process_host builds it this way). -/
def demoNpmHost : Host :=
  { id := 31
    base :=
      { name := "Unknown Device"
        hostname := none
        target := HostTarget.noneT
        network_id := 5
        interfaces := [demoInterface]
        services := []
        ports := []
        source := EntitySource.manual
        virtualization := none
        hidden := false } }

/-- The classification run of the spec's scenario 1 (Nginx Proxy Manager
on 192.0.2.10), with the id counter starting at 100. -/
def demoNpmScan : (Host × List Service) × Nat :=
  discover_services demoNpmEnv demoNpmHost demoNpmBaseline 3 5
    (DiscoveryType.network none HostNamingFallback.bestService) [] 100

/-- The submitted subnet after nil-id replacement (the first step of
SubnetService::create). -/
def subnetWithId (subnet : Subnet) (fresh_id : Nat) : Subnet :=
  if subnet.id = 0 then { subnet with id := fresh_id } else subnet

/-! ## Lemmas and claim theorems -/

/-- The port sort key is injective: ports with equal keys are equal. -/
theorem portKey_injective {a b : PortBase} (h : portKey a = portKey b) : a = b := by
  cases a with
  | mk na pa =>
    cases b with
    | mk nb pb =>
      cases pa <;> cases pb <;>
        simp_all [portKey, TransportProtocol.rank, PortBase.mk.injEq] <;> omega

/-- Membership survives consecutive deduplication, up to the last kept
element: every element of the input equals prev or appears in the
output. -/
theorem mem_dedupGo {x : PortBase} : ∀ (prev : PortBase) {l : List PortBase},
    x ∈ l → x = prev ∨ x ∈ dedupGo prev l := by
  intro prev l
  induction l generalizing prev with
  | nil => intro h; cases h
  | cons b rest ih =>
    intro hx
    by_cases hbp : b = prev
    · rw [dedupGo, if_pos hbp]
      rcases List.mem_cons.mp hx with hxb | hxr
      · exact Or.inl (hxb.trans hbp)
      · exact ih prev hxr
    · rw [dedupGo, if_neg hbp]
      rcases List.mem_cons.mp hx with hxb | hxr
      · exact Or.inr (by simp [hxb])
      · rcases ih b hxr with hxe | hxm
        · exact Or.inr (by simp [hxe])
        · exact Or.inr (List.mem_cons_of_mem _ hxm)

/-- Membership survives dedupConsec. -/
theorem mem_dedupConsec {x : PortBase} {l : List PortBase} (h : x ∈ l) :
    x ∈ dedupConsec l := by
  cases l with
  | nil => cases h
  | cons a rest =>
    rw [dedupConsec]
    rcases List.mem_cons.mp h with hxa | hxr
    · simp [hxa]
    · rcases mem_dedupGo a hxr with hxe | hxm
      · simp [hxe]
      · exact List.mem_cons_of_mem _ hxm

/-- Deduplicating a chain of non-strict key steps yields a chain of
strict key steps (keys are injective, so equal keys mean equal ports). -/
theorem chain_dedupGo {prev : PortBase} : ∀ {l : List PortBase},
    List.Chain portLe prev l → List.Chain portLt prev (dedupGo prev l) := by
  intro l
  induction l generalizing prev with
  | nil => intro _; exact List.Chain.nil
  | cons b rest ih =>
    intro hc
    rcases hc with _ | ⟨hle, hrest⟩
    by_cases hbp : b = prev
    · rw [dedupGo, if_pos hbp]
      exact ih (hbp ▸ hrest)
    · rw [dedupGo, if_neg hbp]
      refine List.Chain.cons ?_ (ih hrest)
      rcases Nat.lt_or_ge (portKey prev) (portKey b) with hlt | hge
      · exact hlt
      · exact absurd (portKey_injective (Nat.le_antisymm (Nat.le_of_lt_succ (Nat.lt_succ_of_le hge)) hle)) hbp

/-- dedupConsec of a key-sorted list is strictly key-sorted. -/
theorem pairwise_dedupConsec {l : List PortBase} (h : List.Sorted portLe l) :
    List.Pairwise portLt (dedupConsec l) := by
  cases l with
  | nil => exact List.Pairwise.nil
  | cons a rest =>
    rw [dedupConsec]
    have hchain : List.Chain portLe a rest :=
      List.chain_iff_pairwise.mpr h
    exact List.chain_iff_pairwise.mp (chain_dedupGo hchain)

/-- The endpoint-port fold only grows the accumulator. -/
theorem mem_foldl_push {x : PortBase} : ∀ (eps acc : List PortBase),
    x ∈ acc →
    x ∈ eps.foldl (fun acc port => if port ∈ acc then acc else acc ++ [port]) acc := by
  intro eps
  induction eps with
  | nil => intro acc h; exact h
  | cons e rest ih =>
    intro acc h
    by_cases he : e ∈ acc
    · simpa [he] using ih acc (by simpa [he] using h)
    · simpa [he] using ih (acc ++ [e]) (List.mem_append_left _ h)

/-- Every endpoint port ends up in the fold's result. -/
theorem mem_foldl_push_of_mem {x : PortBase} : ∀ (eps acc : List PortBase),
    x ∈ eps →
    x ∈ eps.foldl (fun acc port => if port ∈ acc then acc else acc ++ [port]) acc := by
  intro eps
  induction eps with
  | nil => intro acc h; cases h
  | cons e rest ih =>
    intro acc h
    rcases List.mem_cons.mp h with hxe | hxr
    · subst hxe
      by_cases he : x ∈ acc
      · simpa [he] using mem_foldl_push rest acc he
      · simpa [he] using mem_foldl_push rest (acc ++ [x])
          (List.mem_append_right acc (List.mem_singleton.mpr rfl))
    · by_cases he : e ∈ acc
      · simpa [he] using ih acc hxr
      · simpa [he] using ih (acc ++ [e]) hxr

/-- C6. For every result of scan_ports_and_endpoints' post-processing, the
final open_ports list is sorted by (number, transport), contains no
duplicates, and contains every port that produced a successful endpoint
response. -/
theorem scan_post_process_sorted_nodup_complete
    (tcp_ports udp_ports endpoint_ports : List PortBase) :
    List.Sorted portLe (scan_post_process tcp_ports udp_ports endpoint_ports) ∧
    (scan_post_process tcp_ports udp_ports endpoint_ports).Nodup ∧
    ∀ pb ∈ endpoint_ports,
      pb ∈ scan_post_process tcp_ports udp_ports endpoint_ports := by
  have hpw : List.Pairwise portLt (scan_post_process tcp_ports udp_ports endpoint_ports) := by
    unfold scan_post_process
    exact pairwise_dedupConsec (List.sorted_insertionSort portLe _)
  refine ⟨?_, ?_, ?_⟩
  · exact hpw.imp (fun h => Nat.le_of_lt h)
  · exact List.Pairwise.imp (fun h => fun he => absurd (congrArg portKey he) (Nat.ne_of_lt h)) hpw
  · intro pb hpb
    unfold scan_post_process
    exact mem_dedupConsec ((List.mem_insertionSort portLe).mpr
      (mem_foldl_push_of_mem _ _ hpb))

/-- C8. For every FD soft limit, the concurrency derivation equals the
claim's formula — available = limit − 203 saturating at 0, target tiers
5/15/30/50 below 500/2000/5000 and otherwise, port batch
clamp((available/target) − 45, 10, 200), final count
clamp(available / (port_batch + 45), 1, 50) — a configured value other
than the default 15 overrides the result, and limit 256 yields port
batch 10 and concurrent-host count 1. -/
theorem get_optimal_concurrent_scans_matches_spec (fd_limit cfg : Nat) :
    derive_concurrency fd_limit = concurrencySpecFormula fd_limit
    ∧ get_optimal_concurrent_scans fd_limit cfg
        = (if cfg ≠ 15 then cfg else (concurrencySpecFormula fd_limit).2)
    ∧ derive_concurrency 256 = (10, 1) := by
  have h : derive_concurrency fd_limit = concurrencySpecFormula fd_limit := by
    unfold derive_concurrency concurrencySpecFormula
    norm_num
  refine ⟨h, ?_, by decide⟩
  unfold get_optimal_concurrent_scans
  rw [h]

set_option maxRecDepth 16000

/-- C7. Evaluating determine_scan_order on the full IPv4 subnet
192.0.2.0/24: the gateway octets 1 and 254 are visited first, but the
reserved octets 0 and 255 are not skipped — all 256 addresses are kept,
with the broadcast address visited last. -/
theorem determine_scan_order_keeps_reserved_octets :
    (determine_scan_order subnet19202).length = 256
    ∧ Ip.v4 192 0 2 0 ∈ determine_scan_order subnet19202
    ∧ Ip.v4 192 0 2 255 ∈ determine_scan_order subnet19202
    ∧ (determine_scan_order subnet19202).take 2 = [Ip.v4 192 0 2 1, Ip.v4 192 0 2 254]
    ∧ (determine_scan_order subnet19202).getLast? = some (Ip.v4 192 0 2 255) := by
  decide

/-- C1. Discovery::disable never changes the entity (the enabled flag is
written through a pattern-bound copy), so create_discovery on a Scheduled
definition with a malformed cron expression registers no job but returns
and persists the definition with enabled still true, not false. -/
theorem create_discovery_bad_cron_not_disabled :
    (∀ d : Discovery, Discovery.disable d = d)
    ∧ (create_discovery demoCronOk demoBadCronDiscovery).job_registered = false
    ∧ (create_discovery demoCronOk demoBadCronDiscovery).returned = demoBadCronDiscovery
    ∧ Discovery.scheduledEnabled
        (create_discovery demoCronOk demoBadCronDiscovery).returned = some true := by
  refine ⟨?_, by rfl, by rfl, by rfl⟩
  intro d
  unfold Discovery.disable
  split <;> rfl

/-- C2 counterexample. A TCP connection error whose message is in the
critical set does not abort the host scan: scan_tcp_ports still returns
Ok (with the port simply absent), not an error. -/
theorem scan_tcp_ports_swallows_critical_error :
    is_critical_error "Too many open files (os error 24)" = true
    ∧ scan_tcp_ports
        (fun _ => ConnectOutcome.connectError "Too many open files (os error 24)")
        [80, 443] = Except.ok [] :=
  ⟨by rfl, by rfl⟩

/-- C2 amended. A connection error — critical or not — only makes the
probed port count as closed: scan_tcp_ports returns Ok of the connected
ports, the erroring port is not among them, and no error is
propagated. -/
theorem scan_tcp_ports_critical_error_continues
    (outcomes : Nat → ConnectOutcome) (ports : List Nat) (p : Nat) (msg : String)
    (_hp : p ∈ ports) (_hcrit : is_critical_error msg = true)
    (hout : outcomes p = ConnectOutcome.connectError msg) :
    ∃ l, scan_tcp_ports outcomes ports = Except.ok l
      ∧ PortBase.new_tcp p ∉ l
      ∧ ∀ q ∈ ports, outcomes q = ConnectOutcome.connected → PortBase.new_tcp q ∈ l := by
  refine ⟨_, rfl, ?_, ?_⟩
  · intro hmem
    rcases List.mem_filterMap.mp hmem with ⟨q, _hq, hprobe⟩
    cases hoq : outcomes q with
    | connected =>
      rw [hoq] at hprobe
      simp only [tcp_probe, Option.some.injEq] at hprobe
      have hqp : q = p := by
        simpa [PortBase.new_tcp, PortBase.mk.injEq] using hprobe
      rw [hqp] at hoq
      rw [hout] at hoq
      cases hoq
    | connectError m => rw [hoq] at hprobe; simp [tcp_probe] at hprobe
    | timedOut => rw [hoq] at hprobe; simp [tcp_probe] at hprobe
  · intro q hq hconn
    exact List.mem_filterMap.mpr ⟨q, hq, by rw [hconn]; rfl⟩

/-- Witness for the C2 amended theorem at a concrete outcome set: port
80 hits file-descriptor exhaustion, port 22 connects. -/
theorem scan_tcp_ports_critical_error_continues_witness :
    ∃ l, scan_tcp_ports demoOutcomes [80, 22] = Except.ok l
      ∧ PortBase.new_tcp 80 ∉ l
      ∧ ∀ q ∈ [80, 22], demoOutcomes q = ConnectOutcome.connected →
          PortBase.new_tcp q ∈ l :=
  scan_tcp_ports_critical_error_continues demoOutcomes [80, 22] 80
    "too many open files" (by decide) (by rfl) (by rfl)

/-- Inserting under a key and reading that key back gives the inserted
value. -/
theorem assocGet_assocPut_self {α : Type} (l : List (Nat × α)) (k : Nat) (v : α) :
    assocGet (assocPut l k v) k = some v := by
  unfold assocGet assocPut
  by_cases hf : (l.find? (fun kv => kv.fst = k)).isSome
  · rw [if_pos hf]
    induction l with
    | nil => simp at hf
    | cons a rest ih =>
      by_cases ha : a.fst = k
      · simp [List.find?_cons, ha]
      · rw [List.find?_cons_of_neg _ (by simpa using ha)] at hf
        simpa [List.find?_cons, ha] using ih hf
  · rw [if_neg hf]
    induction l with
    | nil => simp
    | cons a rest ih =>
      by_cases ha : a.fst = k
      · rw [List.find?_cons_of_pos _ (by simpa using ha)] at hf
        simp at hf
      · rw [List.find?_cons_of_neg _ (by simpa using ha)] at hf
        simpa [List.find?_cons, ha] using ih hf

/-- C5 counterexample. When the dispatch to the agent fails, the session
start_session inserted stays in the registry in its initial phase
Pending — not Failed — and nothing is broadcast. -/
theorem start_session_dispatch_error_leaves_pending :
    (assocGet (start_session emptyCoord demoDiscovery5 41
        (Except.error "dispatch failed")).1.sessions 41).map (fun p => p.phase)
      = some DiscoveryPhase.pending
    ∧ some DiscoveryPhase.pending ≠ some DiscoveryPhase.failed
    ∧ (start_session emptyCoord demoDiscovery5 41
        (Except.error "dispatch failed")).1.broadcasts = []
    ∧ (start_session emptyCoord demoDiscovery5 41
        (Except.error "dispatch failed")).2 = Except.error "dispatch failed" :=
  ⟨by rfl, by decide, by rfl, by rfl⟩

/-- C5 amended. If start_session's dispatch to the agent fails (the
dispatch is attempted when the agent has no queued session), the error is
returned, the session remains in the registry with its initial phase
Pending, and no update is broadcast — subscribers never observe a Failed
phase for it. -/
theorem start_session_dispatch_error_stays_pending
    (st : CoordState) (d : Discovery) (session_id : Nat) (e : String)
    (hidle : assocGet st.daemon_sessions d.base.daemon_id = none
        ∨ assocGet st.daemon_sessions d.base.daemon_id = some []) :
    (start_session st d session_id (Except.error e)).2 = Except.error e
    ∧ assocGet (start_session st d session_id (Except.error e)).1.sessions session_id
        = some (DiscoveryUpdatePayload.new session_id d.base.daemon_id
            d.base.network_id d.base.discovery_type)
    ∧ (DiscoveryUpdatePayload.new session_id d.base.daemon_id
        d.base.network_id d.base.discovery_type).phase = DiscoveryPhase.pending
    ∧ (start_session st d session_id (Except.error e)).1.broadcasts = st.broadcasts := by
  rcases hidle with h | h <;>
    simp [start_session, h, assocGet_assocPut_self, DiscoveryUpdatePayload.new]

/-- Witness for the C5 amended theorem: an empty registry, a concrete
discovery and a failing dispatch. -/
theorem start_session_dispatch_error_stays_pending_witness :
    (start_session emptyCoord demoDiscovery5 41 (Except.error "boom")).2
        = Except.error "boom"
    ∧ assocGet (start_session emptyCoord demoDiscovery5 41
        (Except.error "boom")).1.sessions 41
        = some (DiscoveryUpdatePayload.new 41 demoDiscovery5.base.daemon_id
            demoDiscovery5.base.network_id demoDiscovery5.base.discovery_type)
    ∧ (DiscoveryUpdatePayload.new 41 demoDiscovery5.base.daemon_id
        demoDiscovery5.base.network_id demoDiscovery5.base.discovery_type).phase
        = DiscoveryPhase.pending
    ∧ (start_session emptyCoord demoDiscovery5 41
        (Except.error "boom")).1.broadcasts = emptyCoord.broadcasts :=
  start_session_dispatch_error_stays_pending emptyCoord demoDiscovery5 41 "boom"
    (Or.inl (by rfl))

/-- C9 counterexample. A submission whose CIDR and network match an
existing subnet of source System is not answered with the existing
subnet: a new record is created and returned — even though neither
record is a Docker discovery from another host. -/
theorem subnet_create_system_source_duplicates :
    SubnetService.create [demoSystemSubnet] 2 demoSubmittedSubnet
      = Except.ok
          { storage := [demoSystemSubnet, { demoSubmittedSubnet with id := 2 }]
            returned := { demoSubmittedSubnet with id := 2 } }
    ∧ (2 : Nat) ≠ demoSystemSubnet.id
    ∧ demoSubmittedSubnet.base.cidr = demoSystemSubnet.base.cidr
    ∧ demoSubmittedSubnet.base.network_id = demoSystemSubnet.base.network_id :=
  ⟨by rfl, by decide, by rfl, by rfl⟩

/-- C9 amended. When a submission's CIDR and network match a stored
subnet, create returns the existing subnet without a new record exactly
when the source guard accepts the pair (same-host Docker pairs and all
non-Docker discovery pairs, but never a System source on either side);
otherwise a new subnet is created. -/
theorem subnet_create_upsert_behavior
    (storage : List Subnet) (fresh_id : Nat) (subnet existing : Subnet)
    (compatible : Bool)
    (hfind : ((storage.filter (fun s =>
        s.base.network_id = subnet.base.network_id)).find?
        (fun s => Subnet.peq (subnetWithId subnet fresh_id) s)) = some existing)
    (hguard : subnetSourceGuard existing (subnetWithId subnet fresh_id)
        = Except.ok compatible) :
    SubnetService.create storage fresh_id subnet
      = (if compatible then
          Except.ok { storage := storage, returned := existing }
        else
          Except.ok { storage := storage ++ [subnetWithId subnet fresh_id]
                      returned := subnetWithId subnet fresh_id }) := by
  simp only [subnetWithId] at hfind hguard
  simp only [SubnetService.create, hfind, hguard]
  cases compatible <;> simp [subnetWithId]

/-- Witness for the C9 amended theorem: resubmitting the same Docker
bridge subnet from the same source host returns the existing record and
its id. -/
theorem subnet_create_upsert_behavior_witness :
    SubnetService.create [demoDockerExisting] 9 demoDockerResubmit
      = (if (true : Bool) then
          Except.ok { storage := [demoDockerExisting], returned := demoDockerExisting }
        else
          Except.ok { storage := [demoDockerExisting] ++ [subnetWithId demoDockerResubmit 9]
                      returned := subnetWithId demoDockerResubmit 9 }) :=
  subnet_create_upsert_behavior [demoDockerExisting] 9 demoDockerResubmit
    demoDockerExisting true (by rfl) (by rfl)

/-- C10. Whenever an AnyOf or AllOf pattern evaluates successfully, the
returned MatchResult carries endpoint = none and mac_vendor = none, even
when a child Endpoint or MacVendor pattern matched: the combination arms
hard-code both fields to None. -/
theorem pattern_anyOf_allOf_no_endpoint_no_vendor
    (env : ClassifierEnv) (params : DiscoverySessionServiceMatchParams)
    (children : List Pattern) (ctr ctr2 : Nat) (r : MatchResult)
    (h : Pattern.matchesSt env params (Pattern.anyOf children) ctr
          = (Except.ok r, ctr2)
        ∨ Pattern.matchesSt env params (Pattern.allOf children) ctr
          = (Except.ok r, ctr2)) :
    r.endpoint = none ∧ r.mac_vendor = none := by
  rcases h with h | h <;>
  · simp only [Pattern.matchesSt] at h
    split at h
    · simp only [Prod.mk.injEq, Except.ok.injEq] at h
      obtain ⟨rfl, -⟩ := h
      exact ⟨rfl, rfl⟩
    · simp at h

/-- Witness for the C10 theorem: an AnyOf whose DockerContainer child
matches. -/
theorem pattern_anyOf_allOf_no_endpoint_no_vendor_witness :
    ∃ r, Pattern.matchesSt demoEnv demoParams
        (Pattern.anyOf [Pattern.dockerContainer]) 0 = (Except.ok r, 0)
      ∧ r.endpoint = none ∧ r.mac_vendor = none :=
  ⟨_, rfl,
    pattern_anyOf_allOf_no_endpoint_no_vendor demoEnv demoParams
      [Pattern.dockerContainer] 0 0 _ (Or.inl rfl)⟩

/-- C3. In the spec's scenario 1 (endpoint response on TCP 80 matching
the Nginx Proxy Manager definition, hostname unresolved, target None),
classification matches one service with a Port binding on port 80 — a
port for which an endpoint response was collected — yet the host's
target stays None instead of becoming ServiceBinding: the binding's port
is looked up on the host before the bound ports are appended, so the
upgrade never fires. -/
theorem discover_services_no_target_upgrade :
    demoNpmBaseline.endpoint_responses.map (fun r => r.endpoint.port_base)
      = [{ number := 80, protocol := TransportProtocol.tcp }]
    ∧ demoNpmScan.1.2.map (fun s => s.base.bindings) = [[Binding.port 101 100 none]]
    ∧ demoNpmScan.1.1.base.ports
      = [{ id := 100, base := { number := 80, protocol := TransportProtocol.tcp } }]
    ∧ demoNpmHost.base.target = HostTarget.noneT
    ∧ demoNpmScan.1.1.base.target = HostTarget.noneT :=
  ⟨by rfl, by rfl, by rfl, by rfl, by rfl⟩

/-- C4 counterexample. In the same run, the port bound by the matched
service's Port binding (base 80) does appear in the host's base port
list — the bound ports are appended to host.base.ports — so the claim's
membership exclusion fails as stated. -/
theorem discover_services_bound_port_in_base_ports :
    demoNpmScan.1.2.map (fun s => Service.boundBases demoNpmScan.1.1 s)
      = [[{ number := 80, protocol := TransportProtocol.tcp }]]
    ∧ ({ number := 80, protocol := TransportProtocol.tcp } : PortBase)
      ∈ demoNpmScan.1.1.base.ports.map (fun p => p.base) :=
  ⟨by rfl, by decide⟩

/-- One loop iteration of discover_services preserves the port-binding
discipline: no accumulated bound port base stays in the working unbound
set. -/
theorem discover_step_bound_inv (env : ClassifierEnv)
    (baseline_params : ServiceMatchBaselineParams)
    (daemon_id network_id : Nat) (discovery_type : DiscoveryType)
    (gateway_ips : List Ip) (st : DiscoverState) (d : ServiceDefinition)
    (hinv : ∀ pb ∈ st.bound_bases, pb ∉ st.l4_unbound_ports) :
    ∀ pb ∈ (discover_step env baseline_params daemon_id network_id discovery_type
        gateway_ips st d).bound_bases,
      pb ∉ (discover_step env baseline_params daemon_id network_id discovery_type
        gateway_ips st d).l4_unbound_ports := by
  simp only [discover_step]
  split
  · exact hinv
  · intro pb hpb hmem
    dsimp only at hpb hmem
    rcases List.mem_append.mp hpb with hold | hnew
    · exact hinv pb hold (List.mem_of_mem_filter hmem)
    · have hpred := List.of_mem_filter hmem
      rw [Bool.not_eq_true'] at hpred
      exact absurd hnew (by simpa using hpred)

/-- The whole definition loop preserves the port-binding discipline. -/
theorem discover_loop_bound_inv (env : ClassifierEnv)
    (baseline_params : ServiceMatchBaselineParams)
    (daemon_id network_id : Nat) (discovery_type : DiscoveryType)
    (gateway_ips : List Ip) :
    ∀ (defs : List ServiceDefinition) (st : DiscoverState),
      (∀ pb ∈ st.bound_bases, pb ∉ st.l4_unbound_ports) →
      ∀ pb ∈ (discover_loop env baseline_params daemon_id network_id discovery_type
          gateway_ips defs st).bound_bases,
        pb ∉ (discover_loop env baseline_params daemon_id network_id discovery_type
          gateway_ips defs st).l4_unbound_ports := by
  intro defs
  induction defs with
  | nil => intro st hinv; exact hinv
  | cons d rest ih =>
    intro st hinv
    exact ih _ (discover_step_bound_inv env baseline_params daemon_id network_id
      discovery_type gateway_ips st d hinv)

/-- Registering service ids on the host does not change its ports. -/
theorem foldl_add_service_ports : ∀ (ss : List Service) (h : Host),
    (ss.foldl (fun h s => h.add_service s.id) h).base.ports = h.base.ports := by
  intro ss
  induction ss with
  | nil => intro h; rfl
  | cons s rest ih => intro h; exact ih (h.add_service s.id)

/-- Materialising the residual unbound bases yields ports with exactly
those bases. -/
theorem materializePorts_map_base : ∀ (l : List PortBase) (ctr : Nat),
    ((materializePorts l ctr).1.map (fun p => p.base)) = l := by
  intro l
  induction l with
  | nil => intro ctr; rfl
  | cons pb rest ih =>
    intro ctr
    simp only [materializePorts, List.map_cons, ih]

/-- C4 amended. After discover_services, the host's port list is the
bound ports accumulated by the loop followed by the residual unbound
ports, the residual ports' bases are exactly the leftover unbound set,
and no port base bound by any matched service appears among them: bound
ports are not repeated as open/unbound ports (they do appear in
host.base.ports once, as the bound entries). -/
theorem discover_services_bound_not_residual (env : ClassifierEnv) (host : Host)
    (baseline_params : ServiceMatchBaselineParams)
    (daemon_id network_id : Nat) (discovery_type : DiscoveryType)
    (gateway_ips : List Ip) (ctr : Nat) :
    ((discover_services env host baseline_params daemon_id network_id discovery_type
        gateway_ips ctr).1.1.base.ports
      = (discoverFinalState env host baseline_params daemon_id network_id
          discovery_type gateway_ips ctr).host.base.ports
        ++ (materializePorts
            (discoverFinalState env host baseline_params daemon_id network_id
              discovery_type gateway_ips ctr).l4_unbound_ports
            (discoverFinalState env host baseline_params daemon_id network_id
              discovery_type gateway_ips ctr).ctr).1)
    ∧ ((materializePorts
          (discoverFinalState env host baseline_params daemon_id network_id
            discovery_type gateway_ips ctr).l4_unbound_ports
          (discoverFinalState env host baseline_params daemon_id network_id
            discovery_type gateway_ips ctr).ctr).1.map (fun p => p.base)
        = (discoverFinalState env host baseline_params daemon_id network_id
            discovery_type gateway_ips ctr).l4_unbound_ports)
    ∧ ∀ pb ∈ (discoverFinalState env host baseline_params daemon_id network_id
          discovery_type gateway_ips ctr).bound_bases,
        pb ∉ ((materializePorts
            (discoverFinalState env host baseline_params daemon_id network_id
              discovery_type gateway_ips ctr).l4_unbound_ports
            (discoverFinalState env host baseline_params daemon_id network_id
              discovery_type gateway_ips ctr).ctr).1.map (fun p => p.base)) := by
  refine ⟨?_, materializePorts_map_base _ _, ?_⟩
  · simp only [discover_services, discoverFinalState, foldl_add_service_ports]
  · intro pb hpb
    rw [materializePorts_map_base]
    exact discover_loop_bound_inv env baseline_params daemon_id network_id
      discovery_type gateway_ips _ _ (by intro pb h; cases h) pb hpb
